import Mathlib

/-!
Shallow embedding of `src/scripts/dataloaders.py` from
KuramitsuLab/lm-chaineval-harness.

The Python file defines two generations of loader classes; the second
generation (later in the file) shadows the first.  Both are embedded here:
the first-generation classes carry the suffix `V1`, the second generation
keeps the plain names.

External collaborators — the filesystem, the `json` standard library and the
Hugging Face `datasets` registry — are passed in as function parameters
(`fs`, `json_loads`, `load_dataset`), so theorems quantify over their
behaviour or fix it by hypothesis.
-/

namespace Dataloaders

/-- A JSON-like value, the payload type of one record field. -/
inductive JsonVal where
  | str : String → JsonVal
  | num : Int → JsonVal
  | bool : Bool → JsonVal
  | null : JsonVal
  deriving Repr, DecidableEq

/-- A Record: one dataset example, a key-value mapping represented as an
ordered association list (Python `dict` preserves insertion order). -/
def Record : Type := List (String × JsonVal)

instance : DecidableEq Record := by
  unfold Record
  infer_instance

/-- Python exception values observable from `load()`. -/
inductive PyError where
  | fileNotFound (msg : String)
  | jsonDecodeError (msg : String)
  | attributeError (msg : String)
  deriving Repr, DecidableEq

/-- Modelled from the spec: the second-generation configuration mapping.
The real `args` object is an external adhoc-argument collaborator that is
not part of this repository; per the spec, alias keys such as
`dataset_path|dataset` and `dataset_head|head` resolve first-present-wins,
a missing key resolves to null, and `split|=test` supplies the default
`"test"` when `split` is absent.  Each field below holds the already
resolved value of one such lookup. -/
structure Args where
  dataset_path : Option String
  head : Option Nat
  split : Option String
  subset : Option String
  deriving Repr, DecidableEq

/-- Python `str.strip()` with no argument: remove leading and trailing
whitespace.  Implemented on the character list of the string. -/
def pyStrip (s : String) : String :=
  ⟨((s.data.dropWhile Char.isWhitespace).reverse.dropWhile
      Char.isWhitespace).reverse⟩

/-- Python `str.endswith(suffix)`: the character list of `suffix` is a
suffix of the character list of `s`. -/
def pyEndswith (s suffix : String) : Bool :=
  suffix.data.isSuffixOf s.data

/-- One synthetic record of the test loader, templated with the 1-based
index `i` (lines 31-37 and 147-153 of the source). -/
def testRecord (i : Nat) : Record :=
  [("task_id", .str ("test_" ++ toString i)),
   ("prompt", .str ("test_prompt_" ++ toString i)),
   ("canonical_solution", .str ("test_solution_" ++ toString i)),
   ("test", .str ("test_test_" ++ toString i)),
   ("entry_point", .str ("test_entry_" ++ toString i))]

/-- First-generation `TestDataLoader.__init__`:
`self.dataset_num = self.dataset_args.get('num', 2)`. -/
def TestDataLoaderV1.datasetNum (num : Option Nat) : Nat :=
  num.getD 2

/-- First-generation `TestDataLoader.load` (source lines 28-38): appends one
templated record for each `i` in `range(1, dataset_num + 1)`. -/
def TestDataLoaderV1.load (dataset_num : Nat) : List Record :=
  (List.range' 1 dataset_num).map testRecord

/-- Second-generation `TestDataLoader.load` (source lines 143-154):
`n = self.head or 10` — Python truthiness makes both a null head and a 0
head fall back to 10 — then one templated record per `i` in
`range(1, n + 1)`. -/
def TestDataLoader.load (head : Option Nat) : List Record :=
  let n : Nat :=
    match head with
    | none => 10
    | some h => if h = 0 then 10 else h
  (List.range' 1 n).map testRecord

/-- The list comprehension `[json.loads(line.strip()) for line in f]`
(source lines 56 and 169): parses the lines left to right, the first
parse failure aborting the whole comprehension. -/
def parseLines (json_loads : String → Except String Record) :
    List String → Except String (List Record)
  | [] => .ok []
  | line :: rest =>
    match json_loads (pyStrip line) with
    | .error e => .error e
    | .ok r =>
      match parseLines json_loads rest with
      | .error e => .error e
      | .ok rs => .ok (r :: rs)

/-- `JSONDataLoader.load`, identical in both generations up to the name of
the cap field (source lines 52-60 and 165-173).  `fs` models the
filesystem: the list of lines of each existing file.  A missing file
raises `FileNotFoundError` with the path in the message; otherwise every
line is stripped and parsed, a parse failure propagates, and the result is
truncated to `head` when `head` is not null. -/
def JSONDataLoader.load (json_loads : String → Except String Record)
    (fs : String → Option (List String))
    (dataset_path : String) (head : Option Nat) : Except PyError (List Record) :=
  match fs dataset_path with
  | none =>
    .error (.fileNotFound ("The file " ++ dataset_path ++ " does not exist."))
  | some lines =>
    match parseLines json_loads lines with
    | .error e => .error (.jsonDecodeError e)
    | .ok dataset =>
      .ok (match head with
           | none => dataset
           | some h => dataset.take h)

/-- One invocation of the external `datasets.load_dataset` collaborator:
the dataset identifier, the optional subset positional argument, and the
`split` keyword argument. -/
structure HFCall where
  path : String
  subset : Option String
  split : String
  deriving Repr, DecidableEq

/-- An item yielded by the registry collaborator; `items` models Python
`item.items()`, the key-value pairs of the mapping-like record. -/
structure HFItem where
  items : List (String × JsonVal)
  deriving Repr, DecidableEq

/-- Second-generation `HFDataLoader.load` (source lines 179-190):
`split = self.args["split|=test"]`, `subset = self.args["subset"]`; the
Python test `if subset:` is truthiness, so both a null subset and an empty
string subset take the two-argument call; each returned item is copied
into a plain dict (`{k: v for k, v in item.items()}`); the cap truncation
`dataset[:self.head]` is applied last. -/
def HFDataLoader.load (load_dataset : HFCall → List HFItem)
    (dataset_path : String) (args : Args) : List Record :=
  let split := args.split.getD "test"
  let raw :=
    match args.subset with
    | some s =>
      if s = "" then load_dataset ⟨dataset_path, none, split⟩
      else load_dataset ⟨dataset_path, some s, split⟩
    | none => load_dataset ⟨dataset_path, none, split⟩
  let dataset := raw.map (fun item => item.items)
  match args.head with
  | none => dataset
  | some h => dataset.take h

/-- The call `HFDataLoader.load` makes to the collaborator, as a value:
the subset is forwarded only when truthy, the split defaults to "test". -/
def hfCall (dataset_path : String) (args : Args) : HFCall :=
  let split := args.split.getD "test"
  match args.subset with
  | some s => if s = "" then ⟨dataset_path, none, split⟩
              else ⟨dataset_path, some s, split⟩
  | none => ⟨dataset_path, none, split⟩

/-- First-generation loader instances as built by the factory, each holding
the constructor arguments of the corresponding Python class. -/
inductive DataLoaderV1 where
  | testLoader (num : Option Nat)
  | jsonLoader (dataset_path : String) (num : Option Nat)
  | hfLoader (dataset_path : String) (num : Option Nat)
  deriving Repr, DecidableEq

/-- `DataLoaderFactory.create` (source lines 94-101).  The comparison
`dataset_path == "test"` is an equality test that is simply false for
`None`; the subsequent `dataset_path.endswith(".jsonl")` raises
`AttributeError` when `dataset_path` is `None`. -/
def DataLoaderFactory.create (dataset_path : Option String) (num : Option Nat) :
    Except PyError DataLoaderV1 :=
  if dataset_path = some "test" then .ok (.testLoader num)
  else
    match dataset_path with
    | none =>
      .error (.attributeError "NoneType object has no attribute endswith")
    | some p =>
      if pyEndswith p ".jsonl" then .ok (.jsonLoader p num)
      else .ok (.hfLoader p num)

/-- Second-generation `load_testdata` (source lines 192-199): reads the
resolved `dataset_path|dataset` value; null dispatches to the test loader
(constructed on the dummy path), a `.jsonl` suffix to the JSON loader, and
anything else to the registry loader. -/
def load_testdata (json_loads : String → Except String Record)
    (fs : String → Option (List String))
    (load_dataset : HFCall → List HFItem)
    (args : Args) : Except PyError (List Record) :=
  match args.dataset_path with
  | none => .ok (TestDataLoader.load args.head)
  | some dataset_path =>
    if pyEndswith dataset_path ".jsonl" then
      JSONDataLoader.load json_loads fs dataset_path args.head
    else
      .ok (HFDataLoader.load load_dataset dataset_path args)

/-! ### Helper lemmas -/

/-- A successful comprehension yields one parsed record per line. -/
lemma parseLines_ok_length (json_loads : String → Except String Record) :
    ∀ (lines : List String) (objs : List Record),
      parseLines json_loads lines = .ok objs → objs.length = lines.length := by
  intro lines
  induction lines with
  | nil =>
    intro objs h
    simp only [parseLines, Except.ok.injEq] at h
    subst h
    rfl
  | cons line rest ih =>
    intro objs h
    unfold parseLines at h
    cases hline : json_loads (pyStrip line) with
    | error e => rw [hline] at h; cases h
    | ok r =>
      rw [hline] at h
      cases hrest : parseLines json_loads rest with
      | error e => rw [hrest] at h; cases h
      | ok rs =>
        rw [hrest] at h
        simp only [Except.ok.injEq] at h
        subst h
        simp [ih rs hrest]

/-- A successful comprehension parses the `i`-th stripped line to the
`i`-th record. -/
lemma parseLines_ok_get (json_loads : String → Except String Record) :
    ∀ (lines : List String) (objs : List Record),
      parseLines json_loads lines = .ok objs →
      ∀ i (hi : i < lines.length) (hj : i < objs.length),
        json_loads (pyStrip (lines.get ⟨i, hi⟩)) = .ok (objs.get ⟨i, hj⟩) := by
  intro lines
  induction lines with
  | nil =>
    intro objs _ i hi
    exact absurd hi (by simp)
  | cons line rest ih =>
    intro objs h i hi hj
    unfold parseLines at h
    cases hline : json_loads (pyStrip line) with
    | error e => rw [hline] at h; cases h
    | ok r =>
      rw [hline] at h
      cases hrest : parseLines json_loads rest with
      | error e => rw [hrest] at h; cases h
      | ok rs =>
        rw [hrest] at h
        simp only [Except.ok.injEq] at h
        subst h
        cases i with
        | zero => simpa using hline
        | succ n =>
          exact ih rs hrest n (by simpa using hi) (by simpa using hj)

/-- If any line of the file fails to parse, the whole comprehension fails. -/
lemma parseLines_error_of_mem (json_loads : String → Except String Record) :
    ∀ (lines : List String) (line : String) (e0 : String),
      line ∈ lines → json_loads (pyStrip line) = .error e0 →
      ∃ e, parseLines json_loads lines = .error e := by
  intro lines
  induction lines with
  | nil =>
    intro line e0 hmem
    exact absurd hmem (by simp)
  | cons hd rest ih =>
    intro line e0 hmem hbad
    cases hhd : json_loads (pyStrip hd) with
    | error e =>
      exact ⟨e, by unfold parseLines; rw [hhd]⟩
    | ok r =>
      rcases List.mem_cons.mp hmem with heq | hrest_mem
      · subst heq
        rw [hbad] at hhd
        cases hhd
      · obtain ⟨e, he⟩ := ih line e0 hrest_mem hbad
        exact ⟨e, by unfold parseLines; rw [hhd, he]⟩

/-- A bad line makes `JSONDataLoader.load` fail with a parse error and
produce no record list at all, for every cap. -/
lemma json_load_error_of_bad_line (json_loads : String → Except String Record)
    (fs : String → Option (List String)) (dataset_path : String)
    (head : Option Nat) (lines : List String) (line : String) (e0 : String)
    (hfs : fs dataset_path = some lines) (hmem : line ∈ lines)
    (hbad : json_loads (pyStrip line) = .error e0) :
    (∃ e, JSONDataLoader.load json_loads fs dataset_path head =
      .error (.jsonDecodeError e)) ∧
    ∀ res, JSONDataLoader.load json_loads fs dataset_path head ≠ .ok res := by
  obtain ⟨e, he⟩ := parseLines_error_of_mem json_loads lines line e0 hmem hbad
  have hload : JSONDataLoader.load json_loads fs dataset_path head =
      .error (.jsonDecodeError e) := by
    simp [JSONDataLoader.load, hfs, he]
  exact ⟨⟨e, hload⟩, fun res h => by rw [hload] at h; cases h⟩

/-- `HFDataLoader.load` factored through the single collaborator call it
makes. -/
lemma hf_load_eq (load_dataset : HFCall → List HFItem) (dataset_path : String)
    (args : Args) :
    HFDataLoader.load load_dataset dataset_path args =
      (match args.head with
       | none => (load_dataset (hfCall dataset_path args)).map (fun item => item.items)
       | some h =>
         ((load_dataset (hfCall dataset_path args)).map (fun item => item.items)).take h) := by
  unfold HFDataLoader.load hfCall
  cases args.subset with
  | none => rfl
  | some s =>
    by_cases hs : s = "" <;> simp [hs]

/-! ### Claim theorems -/

/-- C3: the second-generation dispatcher `load_testdata` selects the loader
deterministically from the dataset identifier alone — a null identifier
selects the synthetic test loader, a `.jsonl` suffix the file loader, and
anything else the registry loader — and delegates to that loader's
`load()`. -/
theorem load_testdata_dispatch
    (json_loads : String → Except String Record)
    (fs : String → Option (List String))
    (load_dataset : HFCall → List HFItem) (args : Args) :
    (args.dataset_path = none →
      load_testdata json_loads fs load_dataset args =
        .ok (TestDataLoader.load args.head)) ∧
    (∀ p, args.dataset_path = some p → pyEndswith p ".jsonl" = true →
      load_testdata json_loads fs load_dataset args =
        JSONDataLoader.load json_loads fs p args.head) ∧
    (∀ p, args.dataset_path = some p → pyEndswith p ".jsonl" = false →
      load_testdata json_loads fs load_dataset args =
        .ok (HFDataLoader.load load_dataset p args)) := by
  refine ⟨fun h => ?_, fun p hp hj => ?_, fun p hp hj => ?_⟩
  · simp [load_testdata, h]
  · simp [load_testdata, hp, hj]
  · simp [load_testdata, hp, hj]

/-- Witness for C3: the three dispatch branches at concrete
configurations. -/
theorem load_testdata_dispatch_witness :
    load_testdata (fun _ => .ok []) (fun _ => none) (fun _ => [])
        ⟨none, none, none, none⟩ = .ok (TestDataLoader.load none) ∧
    load_testdata (fun _ => .ok []) (fun _ => none) (fun _ => [])
        ⟨some "d.jsonl", none, none, none⟩ =
      JSONDataLoader.load (fun _ => .ok []) (fun _ => none) "d.jsonl" none ∧
    load_testdata (fun _ => .ok []) (fun _ => none) (fun _ => [])
        ⟨some "org/ds", none, none, none⟩ =
      .ok (HFDataLoader.load (fun _ => []) "org/ds"
            ⟨some "org/ds", none, none, none⟩) :=
  ⟨(load_testdata_dispatch (fun _ => .ok []) (fun _ => none) (fun _ => [])
      ⟨none, none, none, none⟩).1 rfl,
   (load_testdata_dispatch (fun _ => .ok []) (fun _ => none) (fun _ => [])
      ⟨some "d.jsonl", none, none, none⟩).2.1 "d.jsonl" rfl (by decide),
   (load_testdata_dispatch (fun _ => .ok []) (fun _ => none) (fun _ => [])
      ⟨some "org/ds", none, none, none⟩).2.2 "org/ds" rfl (by decide)⟩

/-- C4: on an existing file all of whose stripped lines parse, the file
loader returns exactly the parsed objects in line order; a cap keeps the
first `head` records, and a cap at least the record count (or a null cap)
returns them all. -/
theorem json_load_file_order (json_loads : String → Except String Record)
    (fs : String → Option (List String)) (dataset_path : String)
    (lines : List String) (objs : List Record)
    (hfs : fs dataset_path = some lines)
    (hparse : parseLines json_loads lines = .ok objs) :
    JSONDataLoader.load json_loads fs dataset_path none = .ok objs ∧
    (∀ h, JSONDataLoader.load json_loads fs dataset_path (some h) =
      .ok (objs.take h)) ∧
    (∀ h, objs.length ≤ h →
      JSONDataLoader.load json_loads fs dataset_path (some h) = .ok objs) ∧
    objs.length = lines.length ∧
    ∀ i (hi : i < lines.length) (hj : i < objs.length),
      json_loads (pyStrip (lines.get ⟨i, hi⟩)) = .ok (objs.get ⟨i, hj⟩) := by
  refine ⟨?_, fun h => ?_, fun h hle => ?_,
    parseLines_ok_length json_loads lines objs hparse,
    parseLines_ok_get json_loads lines objs hparse⟩
  · simp [JSONDataLoader.load, hfs, hparse]
  · simp [JSONDataLoader.load, hfs, hparse]
  · simp [JSONDataLoader.load, hfs, hparse, List.take_of_length_le hle]

/-- Witness for C4: a two-line file, loaded with no cap, with cap 1 and
with cap 5. -/
theorem json_load_file_order_witness :
    JSONDataLoader.load (fun s => .ok [("v", .str s)])
        (fun _ => some ["a", "b"]) "d.jsonl" none =
      .ok [[("v", .str "a")], [("v", .str "b")]] ∧
    JSONDataLoader.load (fun s => .ok [("v", .str s)])
        (fun _ => some ["a", "b"]) "d.jsonl" (some 1) =
      .ok [[("v", .str "a")]] ∧
    JSONDataLoader.load (fun s => .ok [("v", .str s)])
        (fun _ => some ["a", "b"]) "d.jsonl" (some 5) =
      .ok [[("v", .str "a")], [("v", .str "b")]] :=
  ⟨(json_load_file_order (fun s => .ok [("v", .str s)]) (fun _ => some ["a", "b"])
      "d.jsonl" ["a", "b"] [[("v", .str "a")], [("v", .str "b")]] rfl rfl).1,
   (json_load_file_order (fun s => .ok [("v", .str s)]) (fun _ => some ["a", "b"])
      "d.jsonl" ["a", "b"] [[("v", .str "a")], [("v", .str "b")]] rfl rfl).2.1 1,
   (json_load_file_order (fun s => .ok [("v", .str s)]) (fun _ => some ["a", "b"])
      "d.jsonl" ["a", "b"] [[("v", .str "a")], [("v", .str "b")]] rfl
        rfl).2.2.1 5 (by decide)⟩

/-- C5: when the configured path does not exist, the file loader fails with
a `FileNotFoundError` whose message embeds the path; the single filesystem
lookup fully determines the result, so there is no retry. -/
theorem json_load_not_found (json_loads : String → Except String Record)
    (fs : String → Option (List String)) (dataset_path : String)
    (head : Option Nat) (hfs : fs dataset_path = none) :
    JSONDataLoader.load json_loads fs dataset_path head =
      .error (.fileNotFound ("The file " ++ dataset_path ++ " does not exist.")) ∧
    ∃ pre post,
      "The file " ++ dataset_path ++ " does not exist." =
        pre ++ dataset_path ++ post := by
  refine ⟨?_, "The file ", " does not exist.", rfl⟩
  simp [JSONDataLoader.load, hfs]

/-- Witness for C5: a filesystem with no files. -/
theorem json_load_not_found_witness :
    JSONDataLoader.load (fun _ => .ok []) (fun _ => none) "miss.jsonl" none =
      .error (.fileNotFound ("The file " ++ "miss.jsonl" ++ " does not exist.")) ∧
    ∃ pre post,
      "The file " ++ "miss.jsonl" ++ " does not exist." =
        pre ++ "miss.jsonl" ++ post :=
  json_load_not_found (fun _ => .ok []) (fun _ => none) "miss.jsonl" none rfl

/-- C6: a file containing a line that is not valid JSON makes the file
loader fail with a propagated parse error and return no record list at
all, whatever the cap. -/
theorem json_load_malformed_line (json_loads : String → Except String Record)
    (fs : String → Option (List String)) (dataset_path : String)
    (head : Option Nat) (lines : List String) (line : String) (e0 : String)
    (hfs : fs dataset_path = some lines) (hmem : line ∈ lines)
    (hbad : json_loads (pyStrip line) = .error e0) :
    (∃ e, JSONDataLoader.load json_loads fs dataset_path head =
      .error (.jsonDecodeError e)) ∧
    ∀ res, JSONDataLoader.load json_loads fs dataset_path head ≠ .ok res :=
  json_load_error_of_bad_line json_loads fs dataset_path head lines line e0
    hfs hmem hbad

/-- Witness for C6: a two-line file whose second line does not parse. -/
theorem json_load_malformed_line_witness :
    (∃ e, JSONDataLoader.load
        (fun s => if s = "1" then .ok [] else .error "Expecting value")
        (fun _ => some ["1", "?"]) "d.jsonl" none =
      .error (.jsonDecodeError e)) ∧
    ∀ res, JSONDataLoader.load
        (fun s => if s = "1" then .ok [] else .error "Expecting value")
        (fun _ => some ["1", "?"]) "d.jsonl" none ≠ .ok res :=
  json_load_malformed_line
    (fun s => if s = "1" then .ok [] else .error "Expecting value")
    (fun _ => some ["1", "?"]) "d.jsonl" none ["1", "?"] "?" "Expecting value"
    rfl (by decide) rfl

/-- C10: a file containing an empty or whitespace-only line makes the file
loader fail with a parse error: the line is stripped to the empty string
and handed to the JSON parser, never skipped.  (The hypothesis `hempty`
records that the external JSON library rejects empty input, which the spec
implies by requiring one JSON object per non-empty line.) -/
theorem json_load_blank_line (json_loads : String → Except String Record)
    (fs : String → Option (List String)) (dataset_path : String)
    (head : Option Nat) (lines : List String) (line : String) (e0 : String)
    (hfs : fs dataset_path = some lines) (hmem : line ∈ lines)
    (hblank : pyStrip line = "") (hempty : json_loads "" = .error e0) :
    (∃ e, JSONDataLoader.load json_loads fs dataset_path head =
      .error (.jsonDecodeError e)) ∧
    ∀ res, JSONDataLoader.load json_loads fs dataset_path head ≠ .ok res :=
  json_load_error_of_bad_line json_loads fs dataset_path head lines line e0
    hfs hmem (by rw [hblank]; exact hempty)

/-- Witness for C10: a file whose second line is whitespace-only. -/
theorem json_load_blank_line_witness :
    (∃ e, JSONDataLoader.load
        (fun s => if s = "" then .error "Expecting value" else .ok [])
        (fun _ => some ["1", "  "]) "d.jsonl" (some 1) =
      .error (.jsonDecodeError e)) ∧
    ∀ res, JSONDataLoader.load
        (fun s => if s = "" then .error "Expecting value" else .ok [])
        (fun _ => some ["1", "  "]) "d.jsonl" (some 1) ≠ .ok res :=
  json_load_blank_line
    (fun s => if s = "" then .error "Expecting value" else .ok [])
    (fun _ => some ["1", "  "]) "d.jsonl" (some 1) ["1", "  "] "  "
    "Expecting value" rfl (by decide) rfl rfl

/-- C9: the first-generation factory selects the synthetic loader exactly
when the identifier is the literal string "test"; a null identifier is not
dispatched to any loader — it falls through the equality test and raises
`AttributeError` at `dataset_path.endswith`. -/
theorem factory_dispatch :
    (∀ (p : Option String) (num : Option Nat),
        DataLoaderFactory.create p num = .ok (.testLoader num) ↔
          p = some "test") ∧
    ∀ (num : Option Nat), ∃ msg,
        DataLoaderFactory.create none num = .error (.attributeError msg) := by
  constructor
  · intro p num
    constructor
    · intro h
      by_contra hne
      cases p with
      | none => simp [DataLoaderFactory.create] at h
      | some s =>
        have hs : s ≠ "test" := fun hh => hne (by rw [hh])
        by_cases hj : pyEndswith s ".jsonl" <;>
          simp [DataLoaderFactory.create, hs, hj] at h
    · intro h
      subst h
      simp [DataLoaderFactory.create]
  · intro num
    exact ⟨"NoneType object has no attribute endswith",
      by simp [DataLoaderFactory.create]⟩

/-- Witness for C9: the literal "test" selects the synthetic loader, and a
null identifier raises. -/
theorem factory_dispatch_witness :
    DataLoaderFactory.create (some "test") none = .ok (.testLoader none) ∧
    ∃ msg, DataLoaderFactory.create none none = .error (.attributeError msg) :=
  ⟨(factory_dispatch.1 (some "test") none).mpr rfl, factory_dispatch.2 none⟩

/-- C1 counterexample: with a cap of 0 the second-generation synthetic
loader does not return the empty sequence — `self.head or 10` treats 0 as
unset. -/
theorem head_zero_claim_cex : TestDataLoader.load (some 0) ≠ [] := by
  simp [TestDataLoader.load]

/-- C1 corrected: with a cap of 0 the file loader (on an existing, fully
parseable file) and the registry loader return the empty sequence, but the
second-generation synthetic loader treats a 0 cap as unset and returns 10
records. -/
theorem head_zero_amended (json_loads : String → Except String Record)
    (fs : String → Option (List String)) (dataset_path : String)
    (lines : List String) (ds : List Record)
    (load_dataset : HFCall → List HFItem) (hf_path : String) (args : Args)
    (hfs : fs dataset_path = some lines)
    (hparse : parseLines json_loads lines = .ok ds)
    (hhead : args.head = some 0) :
    JSONDataLoader.load json_loads fs dataset_path (some 0) = .ok [] ∧
    HFDataLoader.load load_dataset hf_path args = [] ∧
    (TestDataLoader.load (some 0)).length = 10 := by
  refine ⟨?_, ?_, by simp [TestDataLoader.load]⟩
  · simp [JSONDataLoader.load, hfs, hparse]
  · rw [hf_load_eq, hhead]
    simp

/-- Witness for C1's corrected statement at concrete inputs. -/
theorem head_zero_amended_witness :
    JSONDataLoader.load (fun _ => .ok []) (fun _ => some ["a"]) "d.jsonl"
        (some 0) = .ok [] ∧
    HFDataLoader.load (fun _ => [⟨[("k", .null)]⟩]) "org/ds"
        ⟨some "org/ds", some 0, none, none⟩ = [] ∧
    (TestDataLoader.load (some 0)).length = 10 :=
  head_zero_amended (fun _ => .ok []) (fun _ => some ["a"]) "d.jsonl" ["a"]
    [([] : Record)] (fun _ => [⟨[("k", .null)]⟩]) "org/ds"
    ⟨some "org/ds", some 0, none, none⟩ rfl rfl rfl

/-- C2 counterexample: the cap bound fails for the second-generation
synthetic loader at cap 0, which returns 10 records. -/
theorem length_cap_claim_cex : ¬ (TestDataLoader.load (some 0)).length ≤ 0 := by
  simp [TestDataLoader.load]

/-- C2 corrected: every `load()` result is an ordered sequence (a list);
for the file and registry loaders its length is at most the cap when a cap
is given and at most the underlying dataset size; the second-generation
synthetic loader instead returns exactly `head` records when the cap is
positive and 10 records when the cap is absent or 0. -/
theorem load_length_bounds :
    (∀ (json_loads : String → Except String Record)
       (fs : String → Option (List String)) (dataset_path : String)
       (head : Option Nat) (lines : List String) (res : List Record),
        fs dataset_path = some lines →
        JSONDataLoader.load json_loads fs dataset_path head = .ok res →
        res.length ≤ lines.length ∧ ∀ n, head = some n → res.length ≤ n) ∧
    (∀ (load_dataset : HFCall → List HFItem) (dataset_path : String)
       (args : Args),
        (HFDataLoader.load load_dataset dataset_path args).length ≤
          (load_dataset (hfCall dataset_path args)).length ∧
        ∀ n, args.head = some n →
          (HFDataLoader.load load_dataset dataset_path args).length ≤ n) ∧
    (∀ n : Nat, 0 < n → (TestDataLoader.load (some n)).length = n) ∧
    (TestDataLoader.load none).length = 10 := by
  refine ⟨?_, ?_, ?_, by simp [TestDataLoader.load]⟩
  · intro json_loads fs dataset_path head lines res hfs hload
    cases hparse : parseLines json_loads lines with
    | error e => simp [JSONDataLoader.load, hfs, hparse] at hload
    | ok ds =>
      have hlen := parseLines_ok_length json_loads lines ds hparse
      cases head with
      | none =>
        simp [JSONDataLoader.load, hfs, hparse] at hload
        subst hload
        exact ⟨le_of_eq hlen, fun n hn => by cases hn⟩
      | some h =>
        simp [JSONDataLoader.load, hfs, hparse] at hload
        subst hload
        constructor
        · simp only [List.length_take]
          omega
        · intro n hn
          injection hn with hn
          subst hn
          simp only [List.length_take]
          omega
  · intro load_dataset dataset_path args
    rw [hf_load_eq]
    cases hh : args.head with
    | none =>
      refine ⟨by simp, fun n hn => ?_⟩
      cases hn
    | some h =>
      constructor
      · simp only [List.length_take, List.length_map]
        omega
      · intro n hn
        injection hn with hn
        subst hn
        simp only [List.length_take, List.length_map]
        omega
  · intro n hn
    have hne : n ≠ 0 := Nat.pos_iff_ne_zero.mp hn
    simp [TestDataLoader.load, hne]

/-- Witness for C2's corrected statement: the file-loader bound at a
concrete one-line file with cap 0, and the synthetic loader at cap 3. -/
theorem load_length_bounds_witness :
    (([] : List Record).length ≤ (["a"] : List String).length ∧
      ∀ n, (some 0 : Option Nat) = some n → ([] : List Record).length ≤ n) ∧
    (TestDataLoader.load (some 3)).length = 3 :=
  ⟨load_length_bounds.1 (fun _ => .ok []) (fun _ => some ["a"]) "d.jsonl"
      (some 0) ["a"] [] rfl rfl,
   load_length_bounds.2.2.1 3 (by decide)⟩

/-- C7 counterexample: with a configured count of 0 the second-generation
synthetic loader returns 10 records rather than the empty sequence. -/
theorem test_loader_claim_cex : (TestDataLoader.load (some 0)).length ≠ 0 := by
  simp [TestDataLoader.load]

/-- C7 corrected: the first-generation synthetic loader returns exactly
`n` records whose `i`-th entry (0-based `i`) is the record templated with
the 1-based index `i + 1`, and the empty sequence for `n = 0`; the
second-generation loader agrees for every positive configured count but
returns 10 records when the count is 0 or absent. -/
theorem test_loader_records (n : Nat) :
    (TestDataLoaderV1.load n).length = n ∧
    (∀ i, i < n → (TestDataLoaderV1.load n)[i]? = some (testRecord (i + 1))) ∧
    TestDataLoaderV1.load 0 = [] ∧
    (∀ h : Nat, 0 < h → TestDataLoader.load (some h) = TestDataLoaderV1.load h) ∧
    (TestDataLoader.load (some 0)).length = 10 ∧
    TestDataLoader.load none = TestDataLoader.load (some 0) := by
  refine ⟨by simp [TestDataLoaderV1.load], fun i hi => ?_, rfl, fun h hh => ?_,
    by simp [TestDataLoader.load], rfl⟩
  · unfold TestDataLoaderV1.load
    rw [List.getElem?_map, List.getElem?_range' _ _ hi]
    simp [Nat.add_comm]
  · have hne : h ≠ 0 := Nat.pos_iff_ne_zero.mp hh
    simp [TestDataLoader.load, TestDataLoaderV1.load, hne]

/-- Witness for C7's corrected statement at concrete counts. -/
theorem test_loader_records_witness :
    (TestDataLoaderV1.load 2)[1]? = some (testRecord 2) ∧
    TestDataLoader.load (some 3) = TestDataLoaderV1.load 3 :=
  ⟨(test_loader_records 2).2.1 1 (by decide),
   (test_loader_records 3).2.2.2.1 3 (by decide)⟩

/-- C8 counterexample: with a configured empty-string subset the registry
loader omits the subset from the collaborator call (Python truthiness), so
its result differs from the claimed pipeline in which the collaborator
receives the configured subset. -/
theorem hf_subset_claim_cex :
    HFDataLoader.load
        (fun c => if c.subset = some "" then [⟨[("k", .null)]⟩] else [])
        "org/ds" ⟨some "org/ds", none, none, some ""⟩ ≠
      ((fun (c : HFCall) =>
          if c.subset = some "" then [⟨[("k", .null)]⟩] else ([] : List HFItem))
          ⟨"org/ds", some "", "test"⟩).map (fun item => item.items) := by
  simp [HFDataLoader.load]

/-- C8 corrected: the registry loader makes exactly one collaborator call,
with the configured identifier, the configured subset except that a null
or empty-string subset is omitted, and the configured split defaulting to
"test"; each returned item is normalized to its key-value pairs and the
cap truncation is applied to the normalized list. -/
theorem hf_load_call_amended (load_dataset : HFCall → List HFItem)
    (dataset_path : String) (args : Args) :
    HFDataLoader.load load_dataset dataset_path args =
      (match args.head with
       | none =>
         (load_dataset (hfCall dataset_path args)).map (fun item => item.items)
       | some h =>
         ((load_dataset (hfCall dataset_path args)).map
           (fun item => item.items)).take h) ∧
    (hfCall dataset_path args).path = dataset_path ∧
    (hfCall dataset_path args).split = args.split.getD "test" ∧
    (hfCall dataset_path args).subset =
      (match args.subset with
       | none => none
       | some s => if s = "" then none else some s) := by
  refine ⟨hf_load_eq load_dataset dataset_path args, ?_, ?_, ?_⟩ <;>
  · unfold hfCall
    cases args.subset with
    | none => rfl
    | some s => by_cases hs : s = "" <;> simp [hs]

end Dataloaders
